import Mathlib

/-!
Shallow embedding of the cyclonedx-rs-gem resolution pipeline:
the retry strategy (src/client.rs), the per-item registry resolver
(src/gem.rs), the outcome partitioner (src/main.rs fetch_gems_info),
and the Nexus verification stage (src/nexus.rs).
HTTP responses are modelled as a status code paired with a JSON value;
JSON bodies are modelled post-lexing by an inductive Json type, and the
serde-derived deserialization of the registry response is embedded
field by field.
-/

namespace CycloneDx

/-- JSON values, modelling serde_json::Value after lexing. -/
inductive Json where
  | null
  | bool (b : Bool)
  | num (n : Int)
  | str (s : String)
  | arr (elems : List Json)
  | obj (fields : List (String × Json))
deriving Repr

/-- Rust Value::index with a string key: field lookup on objects,
Null for a missing key or a non-object receiver. -/
def Json.index (j : Json) (key : String) : Json :=
  match j with
  | .obj fields =>
    match fields.find? (fun f => f.1 == key) with
    | some f => f.2
    | none => .null
  | _ => .null

/-- Rust Value::as_array. -/
def Json.asArray : Json → Option (List Json)
  | .arr elems => some elems
  | _ => none

/-- Rust string deserialization: succeeds exactly on JSON strings. -/
def Json.asStr : Json → Option String
  | .str s => some s
  | _ => none

/-- Deserialized element of the rubygems versions response
(struct GemspecResponse in src/gem.rs). -/
structure GemspecResponse where
  authors : String
  number : String
  platform : String
  summary : String
  sha : String
  licenses : Option (List String)
deriving Repr, DecidableEq

/-- Hash entry of a resolved artifact (struct HashSpec in src/gem.rs). -/
structure HashSpec where
  alg : String
  content : String
deriving Repr, DecidableEq

/-- License entry: the licenses::License enum, either a recognized
identifier or a free-text name. -/
inductive License where
  | KnownLicense (id : String)
  | UnknownLicense (name : String)
deriving Repr, DecidableEq

/-- Resolved artifact (struct Gemspec in src/gem.rs). -/
structure Gemspec where
  name : String
  version : String
  purl : String
  licenses : List License
  author : String
  description : String
  hashes : List HashSpec
deriving Repr, DecidableEq

/-- Pinned source triple (name, version, optional platform):
type GemfileItem in src/gem.rs. -/
def GemfileItem : Type := String × String × Option String

/-- Error taxonomy for registry requests (enum FetchPackageError in
src/errors.rs). Field order follows the display messages: VersionNotFound
carries (version, name), the others carry (name, version). -/
inductive FetchPackageError where
  | SendRequestError (name version : String)
  | ParseResponseError (name version : String)
  | VersionNotFound (version name : String)
  | PackageNotFound (name version : String)
  | ClientError (name version : String)
  | ServerError (name version : String)
  | UnknownError (name version : String)
deriving Repr, DecidableEq

/-- Error taxonomy for Nexus requests (enum NexusError in src/errors.rs). -/
inductive NexusError where
  | UrlParse (url : String)
  | BuildClient
  | SendRequest (name version : String)
  | ParseResponse (name version : String)
deriving Repr, DecidableEq

/-- Transport-level failure before any response is obtained
(a reqwest middleware error). -/
structure TransportError where
  msg : String
deriving Repr, DecidableEq

/-- Completed HTTP response, abstracted to its status code for the retry
strategy. -/
structure Response where
  status : Nat
deriving Repr, DecidableEq

/-- Retryable classification from the reqwest_retry crate. -/
inductive Retryable where
  | Transient
  | Fatal
deriving Repr, DecidableEq

/-- Retry strategy of the registry stage (struct RetryAllExcept404 in
src/client.rs): a completed response with status 404 is never retried,
every other completed response is classified Transient, and a
transport-level failure is classified by the crate default
default_on_request_failure, passed here as a parameter since it lives in
the external reqwest_retry crate. -/
def RetryAllExcept404.handle
    (default_on_request_failure : TransportError → Option Retryable)
    (res : Except TransportError Response) : Option Retryable :=
  match res with
  | .ok success => if success.status == 404 then none else some .Transient
  | .error e => default_on_request_failure e

/-- Configuration extracted by get_client in src/client.rs: the
ExponentialBackoff policy is built with max_retries 3 around the
RetryAllExcept404 strategy. -/
structure ClientConfig where
  maxRetries : Nat
deriving Repr, DecidableEq

/-- Registry-stage client configuration (get_client in src/client.rs). -/
def get_client : ClientConfig := { maxRetries := 3 }

/-- Verification-stage client configuration (get_nexus_client in
src/client.rs): max_retries 5, default retry strategy. -/
def get_nexus_client : ClientConfig := { maxRetries := 5 }

/-- Execution of the retry middleware: attempt k is issued, and while the
strategy classifies the outcome Transient and retry budget remains, the
next attempt is issued; the outcome of the last attempt made is surfaced
as final. -/
def run_with_retries (strategy : Except TransportError Response → Option Retryable)
    (attempts : Nat → Except TransportError Response) :
    Nat → Nat → Except TransportError Response
  | 0, k => attempts k
  | budget + 1, k =>
    match strategy (attempts k) with
    | some .Transient => run_with_retries strategy attempts budget (k + 1)
    | _ => attempts k

/-- Field lookup in a deserialized JSON object. -/
def getField (fields : List (String × Json)) (key : String) : Option Json :=
  (fields.find? (fun f => f.1 == key)).map (fun f => f.2)

/-- serde deserialization of a required String field. -/
def parseStringField (fields : List (String × Json)) (key : String) : Option String :=
  (getField fields key).bind Json.asStr

/-- serde deserialization of the Option Vec-of-String licenses field:
a missing field or JSON null gives none, an array of strings gives the
list, anything else is a deserialization failure. -/
def parseLicensesField (fields : List (String × Json)) : Option (Option (List String)) :=
  match getField fields "licenses" with
  | none => some none
  | some .null => some none
  | some (.arr xs) => (xs.mapM Json.asStr).map some
  | some _ => none

/-- serde deserialization of one GemspecResponse object: every field of
the derived struct must deserialize, a non-object fails. -/
def parseGemspecResponse (j : Json) : Option GemspecResponse :=
  match j with
  | .obj fields => do
    let authors ← parseStringField fields "authors"
    let number ← parseStringField fields "number"
    let platform ← parseStringField fields "platform"
    let summary ← parseStringField fields "summary"
    let sha ← parseStringField fields "sha"
    let licenses ← parseLicensesField fields
    some { authors, number, platform, summary, sha, licenses }
  | _ => none

/-- serde deserialization of the registry body as Vec of GemspecResponse,
the serde_json::from_str call inside find_version_gem. -/
def parseGemspecList (j : Json) : Option (List GemspecResponse) :=
  match j with
  | .arr elems => elems.mapM parseGemspecResponse
  | _ => none

/-- Version selection of src/gem.rs find_version_gem: deserialize the body
as a list of version descriptors and take the first entry whose number
equals the pinned version and, when a platform is pinned, whose platform
equals it exactly; a deserialization failure yields None, folded together
with the no-match case. -/
def find_version_gem (gem_data : Json) (gem_source : GemfileItem) :
    Option GemspecResponse :=
  let (_, version, platform) := gem_source
  match parseGemspecList gem_data with
  | some gem_list =>
    gem_list.find? (fun item =>
      match platform with
      | some platform => item.number == version && item.platform == platform
      | none => item.number == version)
  | none => none

/-- Constructor HashSpec::new in src/gem.rs. -/
def HashSpec.new (content : String) : HashSpec :=
  { alg := "SHA-256", content }

/-- Constructor Gemspec::new in src/gem.rs. The license classification
get_license lives in the gem::licenses module and is passed as a
parameter; it returns the pair driving the match on license_data. -/
def Gemspec.new (get_license : Option (List String) → Option String × Option String)
    (gem_source : GemfileItem) (spec : GemspecResponse) : Gemspec :=
  let (name, version, platform) := gem_source
  let license_data := get_license spec.licenses
  let licenses_list : List License :=
    match license_data with
    | (some license, none) => [License.KnownLicense license]
    | (none, some license) => [License.UnknownLicense license]
    | _ => []
  let purl :=
    match platform with
    | some platform => s!"pkg:gem/{name}@{version}?platform={platform}"
    | none => s!"pkg:gem/{name}@{version}"
  { name := name
    version := version
    purl := purl
    author := spec.authors
    description := spec.summary
    hashes := [HashSpec.new spec.sha]
    licenses := licenses_list }

/-- Error value of the anyhow Result returned by src/gem.rs get_gem: the
send().await? on line 50 propagates a transport failure as the raw
middleware error, unclassified and without gem coordinates, while the
status arms construct anyhow messages that match the FetchPackageError
display strings one for one. -/
inductive GemError where
  | transport (e : TransportError)
  | classified (e : FetchPackageError)
deriving Repr, DecidableEq

/-- Per-item registry resolver, src/gem.rs get_gem, after the final retry
outcome of the transport is fixed: a transport failure is propagated by
the question-mark operator as the raw middleware error with no
classification and no (name, version) context; a completed response is
classified by status in the source's match order (200, then 404, then
400..=499, then 500..=599, then the catch-all), and on 200 the body is
searched by find_version_gem, a miss giving the VersionNotFound message
with (version, name) as in the source. -/
def get_gem (get_license : Option (List String) → Option String × Option String)
    (gem_source : GemfileItem)
    (resp : Except TransportError (Nat × Json)) : Except GemError Gemspec :=
  let (name, version, _) := gem_source
  match resp with
  | .error e => .error (.transport e)
  | .ok (status, body) =>
    if status == 200 then
      match find_version_gem body gem_source with
      | some gem => .ok (Gemspec.new get_license gem_source gem)
      | none => .error (.classified (.VersionNotFound version name))
    else if status == 404 then
      .error (.classified (.PackageNotFound name version))
    else if 400 ≤ status && status ≤ 499 then
      .error (.classified (.ClientError name version))
    else if 500 ≤ status && status ≤ 599 then
      .error (.classified (.ServerError name version))
    else
      .error (.classified (.UnknownError name version))

/-- Outcome partitioner of src/main.rs fetch_gems_info, after all per-item
outcomes are collected: partition on Result::is_ok and unwrap the
successes (on the all-ok partition, unwrap is Except.toOption under
filterMap); errors are only printed in verbose mode and the function
always returns the list of successes. -/
def fetch_gems_info (gem_specs_results : List (Except FetchPackageError Gemspec)) :
    List Gemspec :=
  let p := gem_specs_results.partition (fun r => r.isOk)
  p.1.filterMap (fun r => r.toOption)

/-- Verification result for one package (struct NexusResult in
src/nexus.rs). -/
structure NexusResult where
  name : String
  version : String
  purl : String
  is_exist : Bool
deriving Repr, DecidableEq

/-- Response check of src/nexus.rs Nexus::check_response:
response.map applies the closure only to the Ok value, so an error passes
through unchanged; on Ok the closure indexes the body at "items", calls
as_array and unwraps it — when the items field is missing or not an array
the unwrap panics, modelled as the none result of the outer Option. -/
def check_response (response : Except NexusError Json) :
    Option (Except NexusError Bool) :=
  match response with
  | .error e => some (.error e)
  | .ok json =>
    match (json.index "items").asArray with
    | some items => some (.ok (!items.isEmpty))
    | none => none

/-- Per-item verifier, src/nexus.rs Nexus::check_package, after the
send_request outcome is fixed: the check_response result is mapped into a
NexusResult carrying the package coordinates, the panic case of
check_response passing through as none. -/
def check_package (package : Gemspec) (response : Except NexusError Json) :
    Option (Except NexusError NexusResult) :=
  (check_response response).map (fun r =>
    r.map (fun is_exist =>
      { name := package.name
        version := package.version
        purl := package.purl
        is_exist := is_exist }))

/-- Aggregation of src/nexus.rs check_packages, after all per-item
outcomes are collected: partition on Result::is_ok, unwrap and return the
successes; errors are only printed in verbose mode. -/
def check_packages (nexus_results : List (Except NexusError NexusResult)) :
    List NexusResult :=
  let p := nexus_results.partition (fun r => r.isOk)
  p.1.filterMap (fun r => r.toOption)

/-- NexusResult::is_absent in src/nexus.rs. -/
def NexusResult.is_absent (r : NexusResult) : Bool :=
  !r.is_exist

/-- Concurrency ceiling of the registry stage
(CONCURRENT_REQUESTS in src/main.rs). -/
def mainConcurrentRequests : Nat := 50

/-- Concurrency ceiling of the verification stage
(CONCURRENT_REQUESTS in src/nexus.rs). -/
def nexusConcurrentRequests : Nat := 3

section Lemmas

/-- Unfolding of the partition-then-unwrap idiom shared by
fetch_gems_info and check_packages: it returns exactly the Ok payloads in
order. -/
theorem partition_fst_filterMap_toOption {ε α : Type}
    (rs : List (Except ε α)) :
    (rs.partition (fun r => r.isOk)).1.filterMap (fun r => r.toOption)
      = rs.filterMap (fun r => r.toOption) := by
  rw [List.partition_eq_filter_filter]
  induction rs with
  | nil => rfl
  | cons r rs ih =>
    cases r with
    | error e => simpa [Except.isOk, Except.toBool, Except.toOption] using ih
    | ok a => simpa [Except.isOk, Except.toBool, Except.toOption] using ih

/-- Length of the Ok payloads of an outcome list equals the total length
minus the number of errors. -/
theorem filterMap_toOption_length {ε α : Type}
    (rs : List (Except ε α)) :
    (rs.filterMap (fun r => r.toOption)).length
      = rs.length - (rs.filter (fun r => !r.isOk)).length := by
  induction rs with
  | nil => rfl
  | cons r rs ih =>
    cases r with
    | error e =>
      simp only [List.filterMap_cons, Except.toOption, List.filter_cons,
        Except.isOk, Except.toBool, Bool.not_false, if_true, List.length_cons]
      simpa [Except.toOption, Except.isOk, Except.toBool] using ih
    | ok a =>
      have hle : (rs.filter (fun r => !r.isOk)).length ≤ rs.length :=
        List.length_filter_le _ _
      simp only [Except.isOk, Except.toBool] at hle
      simp only [List.filterMap_cons, Except.toOption, List.filter_cons,
        Except.isOk, Except.toBool, Bool.not_true, List.length_cons,
        if_false, Bool.false_eq_true]
      simp only [Except.toOption, Except.isOk, Except.toBool] at ih
      omega

end Lemmas

/-- C1: the outcome partition of fetch_gems_info returns exactly the
successful resolutions — N pinned sources with M failed outcomes yield
exactly N − M resolved artifacts — errors never make the function fail,
and an all-failures outcome list yields the empty artifact list. -/
theorem C1_outcome_partition
    (results : List (Except FetchPackageError Gemspec)) :
    fetch_gems_info results = results.filterMap (fun r => r.toOption)
    ∧ (fetch_gems_info results).length
        = results.length - (results.filter (fun r => !r.isOk)).length
    ∧ ∀ errs : List FetchPackageError,
        fetch_gems_info (errs.map Except.error) = [] := by
  have hmain : fetch_gems_info results = results.filterMap (fun r => r.toOption) :=
    partition_fst_filterMap_toOption results
  refine ⟨hmain, ?_, ?_⟩
  · rw [hmain]
    exact filterMap_toOption_length results
  · intro errs
    have h2 : fetch_gems_info (errs.map Except.error)
        = (errs.map Except.error).filterMap (fun r => r.toOption) :=
      partition_fst_filterMap_toOption _
    rw [h2]
    clear h2
    induction errs with
    | nil => rfl
    | cons x xs ih =>
      rw [List.map_cons, List.filterMap_cons]
      exact ih

/-- C6: purl construction in Gemspec::new is a pure function of
(name, version, platform): pkg:gem/name@version with the platform query
appended exactly when a platform was pinned, in particular on the two
concrete examples. -/
theorem C6_purl_pure
    (get_license : Option (List String) → Option String × Option String)
    (name version platform : String) (spec : GemspecResponse) :
    (Gemspec.new get_license (name, version, some platform) spec).purl
        = s!"pkg:gem/{name}@{version}?platform={platform}"
    ∧ (Gemspec.new get_license (name, version, none) spec).purl
        = s!"pkg:gem/{name}@{version}"
    ∧ (Gemspec.new get_license ("nokogiri", "1.16.5", some "arm64-darwin") spec).purl
        = "pkg:gem/nokogiri@1.16.5?platform=arm64-darwin"
    ∧ (Gemspec.new get_license ("actioncable", "7.0.8.4", none) spec).purl
        = "pkg:gem/actioncable@7.0.8.4" :=
  ⟨rfl, rfl, rfl, rfl⟩

/-- C7: for every possible output of the external license-classification
lookup, the artifact built by Gemspec::new has zero or one license
entries — a single Known entry, a single Unknown entry, or none — never
both and never more than one. -/
theorem C7_license_invariant
    (get_license : Option (List String) → Option String × Option String)
    (gem_source : GemfileItem) (spec : GemspecResponse) :
    (Gemspec.new get_license gem_source spec).licenses.length ≤ 1
    ∧ ((Gemspec.new get_license gem_source spec).licenses = []
       ∨ (∃ id, (Gemspec.new get_license gem_source spec).licenses
            = [License.KnownLicense id])
       ∨ (∃ nm, (Gemspec.new get_license gem_source spec).licenses
            = [License.UnknownLicense nm])) := by
  obtain ⟨name, version, platform⟩ := gem_source
  simp only [Gemspec.new]
  rcases hl : get_license spec.licenses with ⟨k, u⟩
  rcases k with _ | id <;> rcases u with _ | nm <;>
    simp

/-- Helper: when the strategy classifies every attempt Transient, the
retry loop exhausts its whole budget and surfaces the outcome of the last
attempt. -/
theorem run_with_retries_all_transient
    (strategy : Except TransportError Response → Option Retryable)
    (attempts : Nat → Except TransportError Response)
    (budget k : Nat)
    (h : ∀ j, strategy (attempts j) = some Retryable.Transient) :
    run_with_retries strategy attempts budget k = attempts (k + budget) := by
  induction budget generalizing k with
  | zero => simp [run_with_retries]
  | succ b ih =>
    have heq : k + 1 + b = k + (b + 1) := by omega
    rw [run_with_retries, h k, ih (k + 1), heq]

/-- C2: the registry retry decision depends only on the attempt outcome —
status 404 is NotRetryable, every other completed response (successful
2xx included) is Transient, a transport-level failure uses the crate
default classification — and get_client caps the retry budget at 3,
after which the last outcome is surfaced as final. -/
theorem C2_registry_retry_policy
    (default_on_request_failure : TransportError → Option Retryable)
    (e : TransportError) (s : Nat) (hs : s ≠ 404)
    (attempts : Nat → Except TransportError Response)
    (hall : ∀ j, RetryAllExcept404.handle default_on_request_failure (attempts j)
        = some Retryable.Transient) :
    RetryAllExcept404.handle default_on_request_failure (Except.ok ⟨404⟩) = none
    ∧ RetryAllExcept404.handle default_on_request_failure (Except.ok ⟨s⟩)
        = some Retryable.Transient
    ∧ RetryAllExcept404.handle default_on_request_failure (Except.error e)
        = default_on_request_failure e
    ∧ get_client.maxRetries = 3
    ∧ run_with_retries (RetryAllExcept404.handle default_on_request_failure)
        attempts get_client.maxRetries 0 = attempts 3 := by
  refine ⟨rfl, ?_, rfl, rfl, ?_⟩
  · have hb : (s == 404) = false := beq_eq_false_iff_ne.mpr hs
    simp [RetryAllExcept404.handle, hb]
  · have h := run_with_retries_all_transient
      (RetryAllExcept404.handle default_on_request_failure) attempts 3 0 hall
    simpa using h

/-- Witness for C2 at a concrete strategy, status and attempt stream. -/
theorem C2_registry_retry_policy_witness :
    (200 : Nat) ≠ 404
    ∧ (∀ j : Nat,
        RetryAllExcept404.handle (fun _ => some Retryable.Transient)
          ((fun _ => Except.ok ⟨500⟩) j) = some Retryable.Transient)
    ∧ (RetryAllExcept404.handle (fun _ => some Retryable.Transient)
          (Except.ok ⟨404⟩) = none
       ∧ RetryAllExcept404.handle (fun _ => some Retryable.Transient)
          (Except.ok ⟨200⟩) = some Retryable.Transient
       ∧ RetryAllExcept404.handle (fun _ => some Retryable.Transient)
          (Except.error ⟨"connection refused"⟩)
          = (fun _ => some Retryable.Transient) (⟨"connection refused"⟩ : TransportError)
       ∧ get_client.maxRetries = 3
       ∧ run_with_retries
          (RetryAllExcept404.handle (fun _ => some Retryable.Transient))
          (fun _ => Except.ok ⟨500⟩) get_client.maxRetries 0
          = (fun _ => Except.ok ⟨500⟩) 3) :=
  ⟨by decide, fun j => rfl,
    C2_registry_retry_policy (fun _ => some Retryable.Transient)
      ⟨"connection refused"⟩ 200 (by decide)
      (fun _ => Except.ok ⟨500⟩) (fun j => rfl)⟩

/-- C3 counterexample: on a 200 response whose body is not an array of
version descriptors, get_gem returns VersionNotFound, not a parse
error — the deserialization failure is folded into the no-match case of
find_version_gem. -/
theorem C3_parse_error_counterexample :
    get_gem (fun _ => (none, none)) ("rails", "7.1.1", none)
        (Except.ok (200, Json.str "not an array"))
      = Except.error (GemError.classified
          (FetchPackageError.VersionNotFound "7.1.1" "rails")) := rfl

/-- C3 amended: whenever the 200 body fails to deserialize as a list of
version descriptors, the resolver returns VersionNotFound carrying
(version, name), never ParseResponse. -/
theorem C3_parse_error_amended
    (get_license : Option (List String) → Option String × Option String)
    (name version : String) (platform : Option String)
    (body : Json) (hparse : parseGemspecList body = none) :
    get_gem get_license (name, version, platform) (Except.ok (200, body))
      = Except.error (GemError.classified
          (FetchPackageError.VersionNotFound version name)) := by
  simp [get_gem, find_version_gem, hparse]

/-- Witness for C3 amended at a concrete unparseable body. -/
theorem C3_parse_error_amended_witness :
    parseGemspecList (Json.obj [("error", Json.str "boom")]) = none
    ∧ get_gem (fun _ => (none, none)) ("nokogiri", "1.16.5", some "x86_64-linux")
        (Except.ok (200, Json.obj [("error", Json.str "boom")]))
      = Except.error (GemError.classified
          (FetchPackageError.VersionNotFound "1.16.5" "nokogiri")) :=
  ⟨rfl, C3_parse_error_amended (fun _ => (none, none)) "nokogiri" "1.16.5"
    (some "x86_64-linux") (Json.obj [("error", Json.str "boom")]) rfl⟩

/-- C4: on a 200 response that deserializes to a descriptor list, the
resolver takes the first entry whose number equals the pinned version
and, when a platform is pinned, whose platform equals it exactly, and
returns VersionNotFound when no entry matches; in particular, with a
pinned platform there is no fallback to an entry matching the version
under another platform. -/
theorem C4_first_exact_match
    (get_license : Option (List String) → Option String × Option String)
    (name version : String) (platform : Option String)
    (body : Json) (gems : List GemspecResponse)
    (hparse : parseGemspecList body = some gems) :
    get_gem get_license (name, version, platform) (Except.ok (200, body))
      = (match gems.find? (fun item =>
            match platform with
            | some p => item.number == version && item.platform == p
            | none => item.number == version) with
         | some g => Except.ok (Gemspec.new get_license (name, version, platform) g)
         | none => Except.error (GemError.classified
             (FetchPackageError.VersionNotFound version name)))
    ∧ (∀ p, platform = some p →
        (∀ g ∈ gems, ¬(g.number = version ∧ g.platform = p)) →
        get_gem get_license (name, version, platform) (Except.ok (200, body))
          = Except.error (GemError.classified
              (FetchPackageError.VersionNotFound version name))) := by
  have hfind : find_version_gem body (name, version, platform)
      = gems.find? (fun item =>
          match platform with
          | some p => item.number == version && item.platform == p
          | none => item.number == version) := by
    simp [find_version_gem, hparse]
  constructor
  · simp only [get_gem, hfind]
    rcases gems.find? (fun item =>
        match platform with
        | some p => item.number == version && item.platform == p
        | none => item.number == version) with _ | g <;> simp
  · intro p hp hnone
    subst hp
    have hfn : gems.find? (fun item =>
        item.number == version && item.platform == p) = none := by
      rw [List.find?_eq_none]
      intro g hg
      have := hnone g hg
      simp only [Bool.and_eq_true, beq_iff_eq]
      tauto
    simp [get_gem, hfind, hfn]

/-- Witness for C4 at a concrete body whose single entry matches the
pinned version under a different platform: the pinned-platform lookup
yields VersionNotFound. -/
theorem C4_first_exact_match_witness :
    parseGemspecList (Json.arr [Json.obj
        [("authors", Json.str "a"), ("number", Json.str "1.16.5"),
         ("platform", Json.str "x86_64-linux"), ("summary", Json.str "s"),
         ("sha", Json.str "f2b3"), ("licenses", Json.null)]])
      = some [{ authors := "a", number := "1.16.5", platform := "x86_64-linux",
                summary := "s", sha := "f2b3", licenses := none }]
    ∧ get_gem (fun _ => (none, none)) ("nokogiri", "1.16.5", some "arm64-darwin")
        (Except.ok (200, Json.arr [Json.obj
          [("authors", Json.str "a"), ("number", Json.str "1.16.5"),
           ("platform", Json.str "x86_64-linux"), ("summary", Json.str "s"),
           ("sha", Json.str "f2b3"), ("licenses", Json.null)]]))
      = Except.error (GemError.classified
          (FetchPackageError.VersionNotFound "1.16.5" "nokogiri")) := by
  have h := C4_first_exact_match (fun _ => (none, none)) "nokogiri" "1.16.5"
    (some "arm64-darwin")
    (Json.arr [Json.obj
      [("authors", Json.str "a"), ("number", Json.str "1.16.5"),
       ("platform", Json.str "x86_64-linux"), ("summary", Json.str "s"),
       ("sha", Json.str "f2b3"), ("licenses", Json.null)]])
    [{ authors := "a", number := "1.16.5", platform := "x86_64-linux",
       summary := "s", sha := "f2b3", licenses := none }] rfl
  exact ⟨rfl, h.2 "arm64-darwin" rfl (by decide)⟩

/-- C5 counterexample: on a transport failure the resolver propagates the
raw middleware error by the question-mark operator on the send call — the
result is not the SendRequest classification carrying (name, version)
that the claim requires. -/
theorem C5_transport_counterexample :
    get_gem (fun _ => (none, none)) ("rails", "7.1.1", none)
        (Except.error ⟨"connection refused"⟩)
      = Except.error (GemError.transport ⟨"connection refused"⟩)
    ∧ get_gem (fun _ => (none, none)) ("rails", "7.1.1", none)
        (Except.error ⟨"connection refused"⟩)
      ≠ Except.error (GemError.classified
          (FetchPackageError.SendRequestError "rails" "7.1.1")) :=
  ⟨rfl, by simp [get_gem]⟩

/-- C5 amended: the resolver classifies completed responses by status —
404 yields PackageNotFound, 400–499 excluding 404 yields ClientError,
500–599 yields ServerError, any other non-200 status yields
UnknownError — each such error carrying the item's name and version,
while a transport failure before a response is obtained is propagated as
the raw unclassified middleware error without (name, version) context. -/
theorem C5_status_classification_amended
    (get_license : Option (List String) → Option String × Option String)
    (name version : String) (platform : Option String)
    (e : TransportError) (body : Json) (s : Nat) (hs : s ≠ 200) :
    get_gem get_license (name, version, platform) (Except.error e)
      = Except.error (GemError.transport e)
    ∧ get_gem get_license (name, version, platform) (Except.ok (s, body))
      = Except.error (GemError.classified
          (if s = 404 then FetchPackageError.PackageNotFound name version
           else if 400 ≤ s ∧ s ≤ 499 then FetchPackageError.ClientError name version
           else if 500 ≤ s ∧ s ≤ 599 then FetchPackageError.ServerError name version
           else FetchPackageError.UnknownError name version)) := by
  refine ⟨rfl, ?_⟩
  have h200 : (s == 200) = false := beq_eq_false_iff_ne.mpr hs
  by_cases h404 : s = 404
  · subst h404
    simp [get_gem]
  · have hb404 : (s == 404) = false := beq_eq_false_iff_ne.mpr h404
    simp only [get_gem, h200, hb404, Bool.false_eq_true, if_false, if_neg h404]
    by_cases hc : 400 ≤ s ∧ s ≤ 499
    · simp [hc.1, hc.2, hc]
    · rw [if_neg hc]
      have hcb : (decide (400 ≤ s) && decide (s ≤ 499)) = false := by
        rcases Decidable.not_and_iff_or_not.mp hc with h | h <;> simp [h]
      rw [hcb]
      simp only [Bool.false_eq_true, if_false]
      by_cases hsv : 500 ≤ s ∧ s ≤ 599
      · simp [hsv.1, hsv.2, hsv]
      · rw [if_neg hsv]
        have hsb : (decide (500 ≤ s) && decide (s ≤ 599)) = false := by
          rcases Decidable.not_and_iff_or_not.mp hsv with h | h <;> simp [h]
        rw [hsb]
        simp

/-- Witness for C5 amended at a concrete transport failure and a concrete
503 response. -/
theorem C5_status_classification_amended_witness :
    (503 : Nat) ≠ 200
    ∧ get_gem (fun _ => (none, none)) ("rails", "7.1.1", none)
        (Except.error ⟨"connection refused"⟩)
      = Except.error (GemError.transport ⟨"connection refused"⟩)
    ∧ get_gem (fun _ => (none, none)) ("rails", "7.1.1", none)
        (Except.ok (503, Json.null))
      = Except.error (GemError.classified
          (FetchPackageError.ServerError "rails" "7.1.1")) := by
  have h := C5_status_classification_amended (fun _ => (none, none)) "rails" "7.1.1"
    none ⟨"connection refused"⟩ Json.null 503 (by decide)
  refine ⟨by decide, h.1, ?_⟩
  rw [h.2]
  rfl

/-- C8: a verification item that completes without transport or parse
error produces a result whose exists flag is true exactly when the items
array of the body is non-empty, and an item whose request or parsing
failed contributes no entry to the aggregated verification-result
list. -/
theorem C8_verification_exists
    (package : Gemspec) (json : Json) (items : List Json)
    (h : (json.index "items").asArray = some items) :
    check_package package (Except.ok json)
      = some (Except.ok
          { name := package.name
            version := package.version
            purl := package.purl
            is_exist := !items.isEmpty })
    ∧ ((!items.isEmpty) = true ↔ items ≠ [])
    ∧ (∀ (e : NexusError) (rest : List (Except NexusError NexusResult)),
        check_packages (Except.error e :: rest) = check_packages rest) := by
  refine ⟨?_, ?_, ?_⟩
  · simp [check_package, check_response, h, Except.map]
  · cases items <;> simp
  · intro e rest
    have h1 : check_packages (Except.error e :: rest)
        = (Except.error e :: rest).filterMap (fun r => r.toOption) :=
      partition_fst_filterMap_toOption _
    have h2 : check_packages rest = rest.filterMap (fun r => r.toOption) :=
      partition_fst_filterMap_toOption _
    rw [h1, h2, List.filterMap_cons]
    rfl

/-- Witness for C8 at a concrete body with a one-element items array. -/
theorem C8_verification_exists_witness :
    ((Json.obj [("items", Json.arr [Json.null])]).index "items").asArray
      = some [Json.null]
    ∧ check_package
        { name := "rails", version := "7.1.1", purl := "pkg:gem/rails@7.1.1",
          licenses := [], author := "dhh", description := "web framework",
          hashes := [] }
        (Except.ok (Json.obj [("items", Json.arr [Json.null])]))
      = some (Except.ok
          { name := "rails", version := "7.1.1", purl := "pkg:gem/rails@7.1.1",
            is_exist := !([Json.null] : List Json).isEmpty }) :=
  ⟨rfl, (C8_verification_exists
    { name := "rails", version := "7.1.1", purl := "pkg:gem/rails@7.1.1",
      licenses := [], author := "dhh", description := "web framework",
      hashes := [] }
    (Json.obj [("items", Json.arr [Json.null])]) [Json.null] rfl).1⟩

/-- C9 counterexample: on a body that is a JSON object with no items
field, Value::index yields Null, as_array yields None and the unwrap in
check_response panics — modelled as the none outcome — so the response
check is not total over all JSON bodies. -/
theorem C9_totality_counterexample :
    check_response (Except.ok (Json.obj [])) = none := rfl

/-- C9 amended: the per-item verification response check yields a
classified error or a verification result for every error outcome and for
every body whose items field is an array; a body whose items field is
missing or not an array makes the as_array unwrap panic instead. -/
theorem C9_totality_amended
    (json : Json) (items : List Json) (e : NexusError)
    (h : (json.index "items").asArray = some items) :
    check_response (Except.ok json) = some (Except.ok (!items.isEmpty))
    ∧ check_response (Except.error e) = some (Except.error e) := by
  constructor
  · simp [check_response, h]
  · rfl

/-- Witness for C9 amended at a concrete empty items array and a concrete
classified error. -/
theorem C9_totality_amended_witness :
    ((Json.obj [("items", Json.arr [])]).index "items").asArray
      = some ([] : List Json)
    ∧ check_response (Except.ok (Json.obj [("items", Json.arr [])]))
      = some (Except.ok (!([] : List Json).isEmpty))
    ∧ check_response (Except.error (NexusError.SendRequest "rails" "7.1.1"))
      = some (Except.error (NexusError.SendRequest "rails" "7.1.1")) := by
  have h := C9_totality_amended (Json.obj [("items", Json.arr [])]) []
    (NexusError.SendRequest "rails" "7.1.1") rfl
  exact ⟨rfl, h.1, h.2⟩

end CycloneDx
